import Mathlib

/-!
Verification of the address/error vocabulary of the starcoin
`network-p2p-types` crate (`network-p2p/types/src/lib.rs`).

A multiaddress is modelled as a list of protocol segments; the protocol
segments the code inspects (`Memory`, `P2p`) are modelled together with a
representative sample of the other libp2p segment families.  Machine
integers (the `u64` memory port) are modelled as `Nat` with explicit range
hypotheses where the 64-bit range matters.
-/

namespace NetworkP2PTypes

/-- A multihash-style identity encoding: a hash-function code plus a raw
digest, as carried by the trailing `P2p` segment of a multiaddress. -/
structure Multihash where
  code : Nat
  digest : List Nat
deriving DecidableEq, Repr

/-- An opaque, content-derived peer identity fingerprint; equality is value
equality of the underlying multihash. -/
structure PeerId where
  hash : Multihash
deriving DecidableEq, Repr

/-- Protocol segments of a multiaddress.  `Memory` carries the 64-bit port
of the in-process transport; `P2p` carries a multihash identity.  The other
constructors model the remaining libp2p segment families the code never
inspects individually. -/
inductive Protocol where
  | Ip4 (addr : Nat)
  | Ip6 (addr : Nat)
  | Tcp (port : Nat)
  | Udp (port : Nat)
  | Dns4 (host : String)
  | Ws
  | Memory (port : Nat)
  | P2p (hash : Multihash)
deriving DecidableEq, Repr

/-- A multiaddress: an ordered sequence of protocol segments. -/
abbrev Multiaddr := List Protocol

/-- Build memory protocol Multiaddr by port: `build_multiaddr!(Memory(port))`
produces the one-segment address holding the given port. -/
def memory_addr (port : Nat) : Multiaddr :=
  [Protocol.Memory port]

/-- Generate a random memory protocol Multiaddr: the code applies
`memory_addr` to `rand::random::<u64>()`; the random draw is modelled as an
explicit parameter. -/
def random_memory_addr (r : Nat) : Multiaddr :=
  memory_addr r

/-- Check the address is a memory protocol Multiaddr: true iff any segment
matches `Protocol::Memory(_)`. -/
def is_memory_addr (addr : Multiaddr) : Bool :=
  addr.any (fun protocol =>
    match protocol with
    | Protocol.Memory _ => true
    | _ => false)

/-- Low-level multiaddress decode errors (`libp2p::core::multiaddr::Error`),
modelled by a representative sample of that external type's variants. -/
inductive MultiaddrError where
  | DataLessThanLen
  | InvalidMultiaddr
  | InvalidProtocolString
  | UnknownProtocolString (s : String)
  | ParsingError (msg : String)
deriving DecidableEq, Repr

/-- Error that can be generated by `parse_str_addr`. -/
inductive ParseErr where
  | MultiaddrParse (err : MultiaddrError)
  | InvalidPeerId
  | PeerIdMissing
deriving DecidableEq, Repr

/-- The `std::error::Error::source` implementation of `ParseErr`:
`MultiaddrParse` exposes the wrapped decode error, the other two kinds
expose nothing. -/
def ParseErr.source : ParseErr → Option MultiaddrError
  | ParseErr.MultiaddrParse err => some err
  | ParseErr.InvalidPeerId => none
  | ParseErr.PeerIdMissing => none

/-- The `From<multiaddr::Error> for ParseErr` conversion. -/
def ParseErr.fromMultiaddrError (err : MultiaddrError) : ParseErr :=
  ParseErr.MultiaddrParse err

/-- The `fmt::Display` implementation of `ParseErr`. -/
def MultiaddrError.display : MultiaddrError → String
  | MultiaddrError.DataLessThanLen => "we have less data than indicated by length"
  | MultiaddrError.InvalidMultiaddr => "invalid multiaddr"
  | MultiaddrError.InvalidProtocolString => "invalid protocol string"
  | MultiaddrError.UnknownProtocolString s => "unknown protocol string: " ++ s
  | MultiaddrError.ParsingError msg => "failed to parse: " ++ msg

/-- Rendering of a `ParseErr` following the code's `fmt::Display` impl. -/
def ParseErr.display : ParseErr → String
  | ParseErr.MultiaddrParse err => err.display
  | ParseErr.InvalidPeerId => "Peer id at the end of the address is invalid"
  | ParseErr.PeerIdMissing => "Peer id is missing from the address"

/-- Modelled from the spec: decoding a trailing multihash-style encoding into
a peer identity fingerprint (the decode done by the `multi_address_with_peer_id`
module, which is not among the sources).  The spec requires that an
identity-looking segment "must decode to a valid identity fingerprint;
otherwise parsing fails (e.g., malformed multihash-style encoding)"; validity
is modelled as the multihash carrying a supported fingerprint code with a
digest of the matching length (sha2-256: code 0x12 with a 32-byte digest, or
the inline identity code 0x00 with a digest of at most 42 bytes). -/
def Multihash.decodePeerId (mh : Multihash) : Option PeerId :=
  if (mh.code = 0x12 ∧ mh.digest.length = 32) ∨
     (mh.code = 0 ∧ mh.digest.length ≤ 42) then
    some ⟨mh⟩
  else none

/-- Modelled from the spec: `parse_addr` of module `multi_address_with_peer_id`
(not among the sources).  Splits the address into a transport-address prefix
and a trailing peer-identity component; fails with `InvalidPeerId` when a
trailing identity-looking segment exists but does not decode into a valid
identity fingerprint, and with `PeerIdMissing` when no identity component is
present at the end of the address. -/
def parse_addr (addr : Multiaddr) : Except ParseErr (PeerId × Multiaddr) :=
  match addr.getLast? with
  | some (Protocol.P2p mh) =>
    match mh.decodePeerId with
    | some who => Except.ok (who, addr.dropLast)
    | none => Except.error ParseErr.InvalidPeerId
  | _ => Except.error ParseErr.PeerIdMissing

/-- An address text, modelled by its multiaddress decode outcome: either it
is malformed (the decode stage reports some low-level error) or it decodes
into a well-formed sequence of protocol segments. -/
inductive AddrText where
  | malformed (err : MultiaddrError)
  | wellFormed (segs : Multiaddr)
deriving DecidableEq, Repr

/-- Modelled from the spec: the multiaddress text decode stage that
`parse_str_addr` runs before splitting off the identity. -/
def decodeAddrText : AddrText → Except MultiaddrError Multiaddr
  | AddrText.malformed err => Except.error err
  | AddrText.wellFormed segs => Except.ok segs

/-- Modelled from the spec: `parse_str_addr` of module
`multi_address_with_peer_id` (not among the sources).  Decodes the text into
a multiaddress, converting a decode error through the `From` impl, and then
splits off the trailing identity with `parse_addr`. -/
def parse_str_addr (t : AddrText) : Except ParseErr (PeerId × Multiaddr) :=
  match decodeAddrText t with
  | Except.error err => Except.error (ParseErr.fromMultiaddrError err)
  | Except.ok segs => parse_addr segs

/-- Transport-layer failures of an outbound request
(`libp2p::request_response::OutboundFailure`, an external type). -/
inductive OutboundFailure where
  | DialFailure
  | Timeout
  | ConnectionClosed
  | UnsupportedProtocols
deriving DecidableEq, Repr

/-- Transport-layer failures of an inbound request
(`libp2p::request_response::InboundFailure`, an external type). -/
inductive InboundFailure where
  | Timeout
  | ConnectionClosed
  | UnsupportedProtocols
  | ResponseOmission
deriving DecidableEq, Repr

/-- The `Debug` rendering of an `OutboundFailure` variant name, as used by
the `{:?}` format in `RequestFailure`'s display attribute. -/
def OutboundFailure.debugFmt : OutboundFailure → String
  | OutboundFailure.DialFailure => "DialFailure"
  | OutboundFailure.Timeout => "Timeout"
  | OutboundFailure.ConnectionClosed => "ConnectionClosed"
  | OutboundFailure.UnsupportedProtocols => "UnsupportedProtocols"

/-- The `Debug` rendering of an `InboundFailure` variant name, as used by
the `{:?}` format in `ResponseFailure`'s display attribute. -/
def InboundFailure.debugFmt : InboundFailure → String
  | InboundFailure.Timeout => "Timeout"
  | InboundFailure.ConnectionClosed => "ConnectionClosed"
  | InboundFailure.UnsupportedProtocols => "UnsupportedProtocols"
  | InboundFailure.ResponseOmission => "ResponseOmission"

/-- Error in a request (`RequestFailure`). -/
inductive RequestFailure where
  | NotConnected
  | UnknownProtocol
  | Refused
  | Obsolete
  | Network (cause : OutboundFailure)
deriving DecidableEq, Repr

/-- Error when processing a request sent by a remote (`ResponseFailure`). -/
inductive ResponseFailure where
  | Network (cause : InboundFailure)
deriving DecidableEq, Repr

/-- The `Display` rendering derived by `derive_more::Display`: fieldless
variants print their name, and `Network` uses the explicit attribute
`#[display(fmt = "Problem on the network: {:?}", _0)]`. -/
def RequestFailure.display : RequestFailure → String
  | RequestFailure.NotConnected => "NotConnected"
  | RequestFailure.UnknownProtocol => "UnknownProtocol"
  | RequestFailure.Refused => "Refused"
  | RequestFailure.Obsolete => "Obsolete"
  | RequestFailure.Network cause => "Problem on the network: " ++ cause.debugFmt

/-- The `Display` rendering of `ResponseFailure`, from its
`#[display(fmt = "Problem on the network: {:?}", _0)]` attribute. -/
def ResponseFailure.display : ResponseFailure → String
  | ResponseFailure.Network cause => "Problem on the network: " ++ cause.debugFmt

/-- The `std::error::Error::source` derived by `derive_more::Error` for
`RequestFailure`: the fieldless variants have no source, and the `Network`
payload is marked `#[error(ignore)]`, so it is excluded from the cause
chain as well. -/
def RequestFailure.source : RequestFailure → Option OutboundFailure
  | RequestFailure.NotConnected => none
  | RequestFailure.UnknownProtocol => none
  | RequestFailure.Refused => none
  | RequestFailure.Obsolete => none
  | RequestFailure.Network _ => none

/-- The `std::error::Error::source` derived by `derive_more::Error` for
`ResponseFailure`: the `Network` payload is marked `#[error(ignore)]`, so
it is excluded from the cause chain. -/
def ResponseFailure.source : ResponseFailure → Option InboundFailure
  | ResponseFailure.Network _ => none

/-- When sending a request, what to do on a disconnected recipient. -/
inductive IfDisconnected where
  | TryConnect
  | ImmediateError
deriving DecidableEq, Repr

/-- Shall we connect to a disconnected peer? -/
def IfDisconnected.should_connect : IfDisconnected → Bool
  | IfDisconnected.TryConnect => true
  | IfDisconnected.ImmediateError => false

/-- Helper: the per-segment test inside `is_memory_addr` holds exactly on
memory segments. -/
theorem segment_matches_memory_iff (seg : Protocol) :
    (match seg with
      | Protocol.Memory _ => true
      | _ => false) = true ↔ ∃ port, seg = Protocol.Memory port := by
  cases seg <;> simp

/-- C1: for every 64-bit port, including 0 and the maximum value, the
address built by memory_addr satisfies is_memory_addr, and
random_memory_addr, being memory_addr of a random u64, always yields an
address satisfying is_memory_addr. -/
theorem memory_addr_is_memory_addr (p r : Nat) (hp : p < 2 ^ 64)
    (hr : r < 2 ^ 64) :
    is_memory_addr (memory_addr p) = true ∧
      is_memory_addr (random_memory_addr r) = true :=
  ⟨rfl, rfl⟩

/-- Witness for C1 at the extreme 64-bit ports 2^64 - 1 and 0. -/
theorem memory_addr_is_memory_addr_witness :
    is_memory_addr (memory_addr (2 ^ 64 - 1)) = true ∧
      is_memory_addr (random_memory_addr 0) = true :=
  memory_addr_is_memory_addr (2 ^ 64 - 1) 0 (by norm_num) (by norm_num)

/-- C5: should_connect is true on TryConnect, false on ImmediateError, and
these two values exhaust IfDisconnected. -/
theorem should_connect_spec :
    IfDisconnected.should_connect IfDisconnected.TryConnect = true ∧
      IfDisconnected.should_connect IfDisconnected.ImmediateError = false ∧
      ∀ x : IfDisconnected,
        x = IfDisconnected.TryConnect ∨ x = IfDisconnected.ImmediateError := by
  refine ⟨rfl, rfl, ?_⟩
  intro x
  cases x
  · exact Or.inl rfl
  · exact Or.inr rfl

/-- C6: is_memory_addr returns true exactly when some protocol segment of
the address is a Memory segment, at any position. -/
theorem is_memory_addr_iff_exists_memory_segment (addr : Multiaddr) :
    is_memory_addr addr = true ↔
      ∃ seg ∈ addr, ∃ port, seg = Protocol.Memory port := by
  unfold is_memory_addr
  rw [List.any_eq_true]
  constructor
  · rintro ⟨seg, hmem, hseg⟩
    exact ⟨seg, hmem, (segment_matches_memory_iff seg).mp hseg⟩
  · rintro ⟨seg, hmem, hseg⟩
    exact ⟨seg, hmem, (segment_matches_memory_iff seg).mpr hseg⟩

/-- C7: memory_addr is deterministic (equal ports give equal addresses) and
its result is the single Memory segment carrying the given port. -/
theorem memory_addr_deterministic_single_segment (p q : Nat) (h : p = q) :
    memory_addr p = memory_addr q ∧
      memory_addr p = [Protocol.Memory p] :=
  ⟨congrArg memory_addr h, rfl⟩

/-- Witness for C7 at port 5. -/
theorem memory_addr_deterministic_single_segment_witness :
    memory_addr 5 = memory_addr 5 ∧ memory_addr 5 = [Protocol.Memory 5] :=
  memory_addr_deterministic_single_segment 5 5 rfl

/-- C8: memory_addr is injective on 64-bit ports: distinct ports give
distinct loopback addresses. -/
theorem memory_addr_injective (p q : Nat) (hp : p < 2 ^ 64)
    (hq : q < 2 ^ 64) (hne : p ≠ q) : memory_addr p ≠ memory_addr q := by
  intro h
  apply hne
  have h2 := List.head_eq_of_cons_eq h
  exact Protocol.Memory.injEq p q ▸ h2

/-- Witness for C8 at the distinct ports 0 and 1. -/
theorem memory_addr_injective_witness : memory_addr 0 ≠ memory_addr 1 :=
  memory_addr_injective 0 1 (by norm_num) (by norm_num) (by norm_num)

/-- C9: is_memory_addr is total over all addresses and evaluates to false,
rather than failing, on the empty segment sequence. -/
theorem is_memory_addr_total_false_on_empty :
    is_memory_addr ([] : Multiaddr) = false ∧
      ∀ addr : Multiaddr,
        is_memory_addr addr = true ∨ is_memory_addr addr = false := by
  refine ⟨rfl, ?_⟩
  intro addr
  cases h : is_memory_addr addr
  · exact Or.inr rfl
  · exact Or.inl rfl

/-- Helper: parse_addr yields the InvalidPeerId kind exactly when the last
segment is identity-looking but does not decode. -/
theorem parse_addr_invalid_peer_id_iff (segs : Multiaddr) :
    parse_addr segs = Except.error ParseErr.InvalidPeerId ↔
      ∃ mh, segs.getLast? = some (Protocol.P2p mh) ∧
        mh.decodePeerId = none := by
  cases h : segs.getLast? with
  | none => simp [parse_addr, h]
  | some seg =>
    cases seg with
    | Ip4 a => simp [parse_addr, h]
    | Ip6 a => simp [parse_addr, h]
    | Tcp a => simp [parse_addr, h]
    | Udp a => simp [parse_addr, h]
    | Dns4 s => simp [parse_addr, h]
    | Ws => simp [parse_addr, h]
    | Memory a => simp [parse_addr, h]
    | P2p mh =>
      cases hd : mh.decodePeerId with
      | none => simp [parse_addr, h, hd]
      | some who => simp [parse_addr, h, hd]

/-- Helper: parse_addr yields the PeerIdMissing kind exactly when no
identity-looking segment closes the address. -/
theorem parse_addr_peer_id_missing_iff (segs : Multiaddr) :
    parse_addr segs = Except.error ParseErr.PeerIdMissing ↔
      ∀ mh, segs.getLast? ≠ some (Protocol.P2p mh) := by
  cases h : segs.getLast? with
  | none => simp [parse_addr, h]
  | some seg =>
    cases seg with
    | Ip4 a => simp [parse_addr, h]
    | Ip6 a => simp [parse_addr, h]
    | Tcp a => simp [parse_addr, h]
    | Udp a => simp [parse_addr, h]
    | Dns4 s => simp [parse_addr, h]
    | Ws => simp [parse_addr, h]
    | Memory a => simp [parse_addr, h]
    | P2p mh =>
      cases hd : mh.decodePeerId with
      | none =>
        simp only [parse_addr, h, hd]
        constructor
        · intro habs
          exact absurd habs (by simp)
        · intro hAll
          exact absurd rfl (hAll mh)
      | some who =>
        simp only [parse_addr, h, hd]
        constructor
        · intro habs
          exact absurd habs (by simp)
        · intro hAll
          exact absurd rfl (hAll mh)

/-- C2: parse_str_addr fails with the InvalidPeerId kind exactly when the
text decodes into segments whose trailing segment is identity-looking but
does not decode into a valid identity fingerprint; it fails with the
PeerIdMissing kind exactly when the decoded segments end in no identity
component; and those two kinds are distinct from each other and from every
MultiaddrParse value. -/
theorem parse_str_addr_error_kinds (t : AddrText) :
    (parse_str_addr t = Except.error ParseErr.InvalidPeerId ↔
      ∃ segs mh, t = AddrText.wellFormed segs ∧
        segs.getLast? = some (Protocol.P2p mh) ∧ mh.decodePeerId = none) ∧
    (parse_str_addr t = Except.error ParseErr.PeerIdMissing ↔
      ∃ segs, t = AddrText.wellFormed segs ∧
        ∀ mh, segs.getLast? ≠ some (Protocol.P2p mh)) ∧
    (∀ e, ParseErr.InvalidPeerId ≠ ParseErr.MultiaddrParse e ∧
      ParseErr.PeerIdMissing ≠ ParseErr.MultiaddrParse e) ∧
    ParseErr.InvalidPeerId ≠ ParseErr.PeerIdMissing := by
  refine ⟨?_, ?_, by intro e; exact ⟨by simp, by simp⟩, by simp⟩
  · cases t with
    | malformed err =>
      simp [parse_str_addr, decodeAddrText, ParseErr.fromMultiaddrError]
    | wellFormed segs =>
      simpa [parse_str_addr, decodeAddrText] using
        parse_addr_invalid_peer_id_iff segs
  · cases t with
    | malformed err =>
      simp [parse_str_addr, decodeAddrText, ParseErr.fromMultiaddrError]
    | wellFormed segs =>
      simpa [parse_str_addr, decodeAddrText] using
        parse_addr_peer_id_missing_iff segs

/-- C3 counterexample: at the concrete transport cause Timeout, the Network
variants of RequestFailure and ResponseFailure do not return the wrapped
cause from their Error source method, contrary to the claim. -/
theorem network_failure_source_counterexample :
    RequestFailure.source
        (RequestFailure.Network OutboundFailure.Timeout) ≠
      some OutboundFailure.Timeout ∧
    ResponseFailure.source
        (ResponseFailure.Network InboundFailure.Timeout) ≠
      some InboundFailure.Timeout := by
  exact ⟨by simp [RequestFailure.source], by simp [ResponseFailure.source]⟩

/-- C3 (amended): for every wrapped transport cause, the Network variants
render a human-readable message embedding the cause, but since the wrapped
field is excluded from the derived error source, Error source returns none
and the cause is not exposed in the diagnostic chain. -/
theorem network_failure_display_and_source (c : OutboundFailure)
    (d : InboundFailure) :
    RequestFailure.display (RequestFailure.Network c) =
        "Problem on the network: " ++ c.debugFmt ∧
      ResponseFailure.display (ResponseFailure.Network d) =
        "Problem on the network: " ++ d.debugFmt ∧
      RequestFailure.source (RequestFailure.Network c) = none ∧
      ResponseFailure.source (ResponseFailure.Network d) = none :=
  ⟨rfl, rfl, rfl, rfl⟩

/-- C4: converting a low-level multiaddress decode error builds exactly the
MultiaddrParse kind wrapping it, and its Error source returns exactly that
wrapped decode error unchanged. -/
theorem from_multiaddr_error_preserves_cause (e : MultiaddrError) :
    ParseErr.fromMultiaddrError e = ParseErr.MultiaddrParse e ∧
      ParseErr.source (ParseErr.fromMultiaddrError e) = some e :=
  ⟨rfl, rfl⟩

/-- C10: the InvalidPeerId and PeerIdMissing kinds carry no chained cause
(their Error source returns none), so only the MultiaddrParse kind has a
non-empty cause chain. -/
theorem parse_err_source_none_except_multiaddr :
    ParseErr.source ParseErr.InvalidPeerId = none ∧
      ParseErr.source ParseErr.PeerIdMissing = none ∧
      ∀ p : ParseErr,
        ParseErr.source p ≠ none → ∃ e, p = ParseErr.MultiaddrParse e := by
  refine ⟨rfl, rfl, ?_⟩
  intro p hp
  cases p with
  | MultiaddrParse e => exact ⟨e, rfl⟩
  | InvalidPeerId => exact absurd rfl hp
  | PeerIdMissing => exact absurd rfl hp

end NetworkP2PTypes
